import Mathlib

/-!
Shallow embedding of the parameter-combination discovery and evaluation-metric
selection logic of the `ba_results` Streamlit pages
(`pages/Evaluation_Plot_Single_Source_just_3D.py`, `pages/Plot_Params.py`,
`pages/Raw_Data_Table.py`).

Filenames are modelled as lists of characters.  The Python regular expression
search with pattern f(\d+)_bs(\d+)_nob(\d+) is modelled by a leftmost-match
scan (`reSearch`): at each start position the pattern matches iff the text is
the literal f, a maximal non-empty digit run, the literal _bs, a maximal
non-empty digit run, the literal _nob, and a maximal non-empty digit run
(greedy \d+ followed by a non-digit literal admits no backtracking, so the
maximal-run reading is exact).  Digits are modelled as ASCII digits, the
character class the filenames in scope use.  A directory state is the list of
filenames `os.listdir` returns, in listing order.  Python `sorted(set(xs))`
is modelled by `sortedDistinct`, the strictly ascending enumeration of the
distinct elements of `xs`.
-/

namespace BA

/-- Decimal value of a digit string, as Python `int` on a `\d+` capture. -/
def digitsToNat (ds : List Char) : Nat :=
  ds.foldl (fun n c => 10 * n + (c.toNat - 48)) 0

/-- Strip a literal prefix from a character list, or fail. -/
def stripLit : List Char → List Char → Option (List Char)
  | [], s => some s
  | _ :: _, [] => none
  | c :: cs, d :: ds => if c = d then stripLit cs ds else none

/-- Match the pattern f(\d+)_bs(\d+)_nob(\d+) anchored at the head of `s`,
returning the three captured integers. -/
def matchFrom (s : List Char) : Option (Nat × Nat × Nat) :=
  match stripLit ['f'] s with
  | none => none
  | some s1 =>
    let d1 := s1.takeWhile Char.isDigit
    if d1 = [] then none else
    match stripLit ['_', 'b', 's'] (s1.drop d1.length) with
    | none => none
    | some s2 =>
      let d2 := s2.takeWhile Char.isDigit
      if d2 = [] then none else
      match stripLit ['_', 'n', 'o', 'b'] (s2.drop d2.length) with
      | none => none
      | some s3 =>
        let d3 := s3.takeWhile Char.isDigit
        if d3 = [] then none else
        some (digitsToNat d1, digitsToNat d2, digitsToNat d3)

/-- `re.search` of the pattern over the filename: leftmost successful match. -/
def reSearch : List Char → Option (Nat × Nat × Nat)
  | [] => none
  | c :: cs =>
    match matchFrom (c :: cs) with
    | some t => some t
    | none => reSearch cs

/-- The `f.endswith(".csv")` filter applied to every directory listing. -/
def endsWithCsv (f : List Char) : Bool :=
  List.isSuffixOf ['.', 'c', 's', 'v'] f

/-- The (frequency, blocksize, nob) triples extracted from a directory
listing: every `.csv` file's leftmost pattern match, in listing order. -/
def matchedTriples (files : List (List Char)) : List (Nat × Nat × Nat) :=
  (files.filter endsWithCsv).filterMap reSearch

/-- Insert a value into a strictly ascending list, keeping it strictly
ascending and duplicate-free. -/
def insertDedup (n : Nat) : List Nat → List Nat
  | [] => [n]
  | m :: ms =>
    if n < m then n :: m :: ms
    else if n = m then m :: ms
    else m :: insertDedup n ms

/-- Python `sorted(set(xs))`: the distinct elements of `xs` in strictly
ascending order. -/
def sortedDistinct (l : List Nat) : List Nat :=
  l.foldr insertDedup []

/-- `extract_parameters_from_paths`: accumulate each matched file's three
captures into per-dimension sets, then return the dictionary mapping each
dimension name to its ascending-sorted value list.  The Python function builds
a `defaultdict(set)` whose three keys are first inserted together at the first
matching file and returns a plain-dict comprehension over it, so the result is
the empty dictionary when no file matches, and otherwise holds exactly the
keys frequency, blocksize, nob in insertion order.  Dictionaries are modelled
as association lists in key-insertion order. -/
def extract_parameters_from_paths (files : List (List Char)) :
    List (String × List Nat) :=
  if matchedTriples files = [] then []
  else
    [("frequency", sortedDistinct ((matchedTriples files).map (fun t => t.1))),
     ("blocksize", sortedDistinct ((matchedTriples files).map (fun t => t.2.1))),
     ("nob", sortedDistinct ((matchedTriples files).map (fun t => t.2.2)))]

/-- The nob captures of the files agreeing with the selected frequency and
blocksize (the loop body of `filter_valid_combinations`). -/
def validNobs (selF selBs : Nat) (files : List (List Char)) : List Nat :=
  (files.filter endsWithCsv).filterMap (fun f =>
    match reSearch f with
    | some (fr, bs, nb) =>
      if fr = selF ∧ bs = selBs then some nb else none
    | none => none)

/-- `filter_valid_combinations`: rescan the listing, keep the nob captures of
matching `.csv` files whose frequency and blocksize captures equal the
selection, and return them as `sorted(set(...))`. -/
def filter_valid_combinations (selF selBs : Nat) (files : List (List Char)) :
    List Nat :=
  sortedDistinct (validNobs selF selBs files)

/-- The exact filename `main` later reads:
result_summary_f{frequency}_bs{blocksize}_nob{nob}.csv. -/
def exactResultName (f bs nob : Nat) : List Char :=
  ("result_summary_f" ++ toString f ++ "_bs" ++ toString bs ++
    "_nob" ++ toString nob ++ ".csv").toList

/-- Reading dimension `k` of the discovery result, as Python `dict[k]`
(`none` models the `KeyError` raised on an absent key). -/
def dimLookup (files : List (List Char)) (k : String) : Option (List Nat) :=
  (extract_parameters_from_paths files).lookup k

/-- The nob dimension of the discovery result (`[]` when the key is absent). -/
def nobDim (files : List (List Char)) : List Nat :=
  (dimLookup files "nob").getD []

/-- The frequency dimension of the discovery result. -/
def freqDim (files : List (List Char)) : List Nat :=
  (dimLookup files "frequency").getD []

/-- The blocksize dimension of the discovery result. -/
def bsDim (files : List (List Char)) : List Nat :=
  (dimLookup files "blocksize").getD []

/-! ### Basic lemmas about `insertDedup` and `sortedDistinct` -/

lemma mem_insertDedup (a n : Nat) (l : List Nat) :
    a ∈ insertDedup n l ↔ a = n ∨ a ∈ l := by
  induction l with
  | nil => simp [insertDedup]
  | cons m ms ih =>
    by_cases h1 : n < m
    · simp [insertDedup, h1]
    · by_cases h2 : n = m
      · subst h2
        simp [insertDedup, h1]
      · simp [insertDedup, h1, h2, ih]
        tauto

lemma sorted_insertDedup (n : Nat) (l : List Nat)
    (hl : l.Sorted (· < ·)) : (insertDedup n l).Sorted (· < ·) := by
  induction l with
  | nil => simp [insertDedup]
  | cons m ms ih =>
    rw [List.sorted_cons] at hl
    obtain ⟨hm, hms⟩ := hl
    by_cases h1 : n < m
    · rw [insertDedup, if_pos h1, List.sorted_cons]
      refine ⟨?_, by rw [List.sorted_cons]; exact ⟨hm, hms⟩⟩
      intro b hb
      rcases List.mem_cons.mp hb with rfl | hb
      · exact h1
      · exact h1.trans (hm b hb)
    · by_cases h2 : n = m
      · rw [insertDedup, if_neg h1, if_pos h2, List.sorted_cons]
        exact ⟨hm, hms⟩
      · have hmn : m < n := by omega
        rw [insertDedup, if_neg h1, if_neg h2, List.sorted_cons]
        refine ⟨?_, ih hms⟩
        intro b hb
        rcases (mem_insertDedup b n ms).mp hb with rfl | hb
        · exact hmn
        · exact hm b hb

lemma mem_sortedDistinct (a : Nat) (l : List Nat) :
    a ∈ sortedDistinct l ↔ a ∈ l := by
  induction l with
  | nil => simp [sortedDistinct]
  | cons m ms ih =>
    simp only [sortedDistinct, List.foldr_cons] at *
    rw [mem_insertDedup, ih, List.mem_cons]

lemma sorted_sortedDistinct (l : List Nat) :
    (sortedDistinct l).Sorted (· < ·) := by
  induction l with
  | nil => simp [sortedDistinct]
  | cons m ms ih =>
    simpa only [sortedDistinct, List.foldr_cons] using
      sorted_insertDedup m _ ih

/-- Two strictly ascending lists with the same members are equal. -/
lemma strictSorted_eq_of_mem_iff {l₁ l₂ : List Nat}
    (h₁ : l₁.Sorted (· < ·)) (h₂ : l₂.Sorted (· < ·))
    (hm : ∀ a, a ∈ l₁ ↔ a ∈ l₂) : l₁ = l₂ :=
  List.eq_of_perm_of_sorted
    ((List.perm_ext_iff_of_nodup h₁.nodup h₂.nodup).mpr hm)
    h₁.le_of_lt h₂.le_of_lt

lemma sortedDistinct_eq_of_mem_iff {l₁ l₂ : List Nat}
    (hm : ∀ a, a ∈ l₁ ↔ a ∈ l₂) :
    sortedDistinct l₁ = sortedDistinct l₂ :=
  strictSorted_eq_of_mem_iff (sorted_sortedDistinct l₁)
    (sorted_sortedDistinct l₂)
    (fun a => by rw [mem_sortedDistinct, mem_sortedDistinct]; exact hm a)

/-! ### Membership characterizations for the directory scans -/

lemma mem_matchedTriples (t : Nat × Nat × Nat) (files : List (List Char)) :
    t ∈ matchedTriples files ↔
      ∃ f ∈ files, endsWithCsv f = true ∧ reSearch f = some t := by
  simp only [matchedTriples, List.mem_filterMap, List.mem_filter]
  constructor
  · rintro ⟨f, ⟨hf, hcsv⟩, hre⟩
    exact ⟨f, hf, hcsv, hre⟩
  · rintro ⟨f, hf, hcsv, hre⟩
    exact ⟨f, ⟨hf, hcsv⟩, hre⟩

lemma mem_validNobs (n selF selBs : Nat) (files : List (List Char)) :
    n ∈ validNobs selF selBs files ↔
      ∃ f ∈ files, endsWithCsv f = true ∧
        reSearch f = some (selF, selBs, n) := by
  simp only [validNobs, List.mem_filterMap, List.mem_filter]
  constructor
  · rintro ⟨f, ⟨hf, hcsv⟩, hre⟩
    refine ⟨f, hf, hcsv, ?_⟩
    split at hre
    case _ fr bs nb heq =>
      split_ifs at hre with hc
      obtain ⟨h1, h2⟩ := hc
      obtain rfl : nb = n := by simpa using hre
      rw [heq, h1, h2]
    case _ heq =>
      exact absurd hre (by simp)
  · rintro ⟨f, hf, hcsv, hre⟩
    refine ⟨f, ⟨hf, hcsv⟩, ?_⟩
    rw [hre]
    simp

lemma mem_filter_valid_combinations (n selF selBs : Nat)
    (files : List (List Char)) :
    n ∈ filter_valid_combinations selF selBs files ↔
      ∃ f ∈ files, endsWithCsv f = true ∧
        reSearch f = some (selF, selBs, n) := by
  rw [filter_valid_combinations, mem_sortedDistinct, mem_validNobs]

/-! ### The Metric Resolver

The branch of `main` (lines 157-191 of
`Evaluation_Plot_Single_Source_just_3D.py`) that turns the selected category,
its sub-options and the loaded table into the column name `param_3d`, the
`color_range` pair and the displayed `description`.  The loaded table is
modelled as a map from column names to the column's list of values; the
values, floats in the program, are modelled as rationals. -/

/-- A loaded result table: each column name yields its list of values. -/
def Table : Type := String → List ℚ

/-- pandas `Series.max()` over a column: the greatest element of a non-empty
column (the empty-column case, NaN in pandas, is defaulted to 0 and is never
relied on by any claim). -/
def seriesMax : List ℚ → ℚ
  | [] => 0
  | a :: as => as.foldl max a

/-- pandas `Series.min()` over a column, as `seriesMax`. -/
def seriesMin : List ℚ → ℚ
  | [] => 0
  | a :: as => as.foldl min a

/-- Python `f"{v}"` for an optional integer (`None` prints as None). -/
def pyShowNat : Option Nat → String
  | none => "None"
  | some n => toString n

/-- Python `f"{v}"` for an optional string (`None` prints as None). -/
def pyShowStr : Option String → String
  | none => "None"
  | some s => s

/-- `get_parameter_description`: the statically authored description texts,
keyed by category, with the distance and axis sub-options interpolated; an
unknown key yields the fallback text. -/
def get_parameter_description (category : String) (distance : Option Nat)
    (axis : Option String) : String :=
  if category = "Accuracy" then
    "Accuracy represents the proportion of predictions that are within " ++
    pyShowNat distance ++
    " cm of the real coordinates. It is calculated as the fraction of distances (dist_to_real_coord) that are less than or equal to " ++
    pyShowNat distance ++
    " cm, normalized by the total number of predictions. Specifically: \nAccuracy = (Number of distances <= " ++
    pyShowNat distance ++ ") / Total Number of Predictions."
  else if category = "Beamforming Maxima" then
    "Beamforming Maxima measures the Euclidean distance between the real coordinates (real_x, real_y, real_z) and the maximum of the beamforming output (beamforming_max_x, beamforming_max_y, beamforming_max_z). It is computed as: \nBeamforming Maxima = sqrt((real_x - beamforming_max_x)^2 + (real_y - beamforming_max_y)^2 + (real_z - beamforming_max_z)^2)."
  else if category = "Interquartile Range" then
    "The Interquartile Range (IQR) is the difference between the 75th and 25th percentiles of the distances to the real coordinates (dist_to_real_coord). It is computed as: \nIQR = 75th Percentile - 25th Percentile."
  else if category = "Mean Absolute Error" then
    "The Mean Absolute Error (MAE) is the average of the absolute differences between the estimated coordinates and the real coordinates. For 3D coordinates, it is computed as: \nMAE = (|avg_x_t - real_x| + |avg_y_t - real_y| + |avg_z_t - real_z|) / 3."
  else if category = "Mean Difference" then
    "Mean Difference along the " ++ pyShowStr axis ++
    "-axis represents the average absolute difference between the estimated and real values along the " ++
    pyShowStr axis ++
    "-axis. It is calculated as: \nMean Difference = Mean(|avg_" ++
    pyShowStr axis ++ "_t - real_" ++ pyShowStr axis ++ "|)."
  else if category = "Mean Distance" then
    "Mean Distance is the average Euclidean distance between the estimated coordinates and the real coordinates. It is computed as: \nMean Distance = Mean(sqrt((avg_x_t - real_x)^2 + (avg_y_t - real_y)^2 + (avg_z_t - real_z)^2))."
  else if category = "Median Distance" then
    "Median Distance is the median of the Euclidean distances between the estimated coordinates and the real coordinates. The distance is calculated as: \nd = sqrt((avg_x_t - real_x)^2 + (avg_y_t - real_y)^2 + (avg_z_t - real_z)^2)."
  else if category = "Standard Deviation" then
    "Standard Deviation measures the spread of the estimated coordinates around the real coordinates. It is computed as the average of the standard deviations along all axes: \nStandard Deviation = (std_x + std_y + std_z) / 3."
  else
    "No description available for this category."

/-- The outcome of one metric resolution: the column to plot, the color
range pair handed to the renderer, and the displayed description. -/
structure MetricSelection where
  param_3d : String
  color_range : List ℚ
  description : String
deriving DecidableEq

/-- The category branch of `main`: from the selected category, the loaded
table, the distance threshold, the axis and the xy-only flag, produce the
`MetricSelection`, or the error message `main` displays before returning
without rendering a chart. -/
def resolve (category : String) (table : Table) (distance : Nat)
    (axis : String) (only_xy : Bool) : Except String MetricSelection :=
  if category = "Accuracy" then
    .ok
      { param_3d :=
          if only_xy then "accuracy_" ++ toString distance ++ "cm_xy"
          else "accuracy_" ++ toString distance ++ "cm",
        color_range := [0, 1],
        description := get_parameter_description category (some distance) none }
  else if category = "Beamforming Maxima" then
    .ok
      { param_3d := if only_xy then "beamforming_dist_xy" else "beamforming_dist",
        color_range := [0, seriesMax (table "beamforming_dist")],
        description := get_parameter_description category none none }
  else if category = "Interquartile Range" then
    .ok
      { param_3d := "iqr_dist",
        color_range := [0, seriesMax (table "iqr_dist")],
        description := get_parameter_description category none none }
  else if category = "Mean Absolute Error" then
    .ok
      { param_3d := if only_xy then "mae_xy" else "mae_coord",
        color_range := [0, seriesMax (table "mae_coord")],
        description := get_parameter_description category none none }
  else if category = "Mean Difference" then
    .ok
      { param_3d := "mean_diff_" ++ axis,
        color_range := [0, seriesMax (table ("mean_diff_" ++ axis))],
        description := get_parameter_description category none (some axis) }
  else if category = "Mean Distance" then
    .ok
      { param_3d := if only_xy then "mean_dist_xy" else "mean_dist",
        color_range := [0, seriesMax (table "mean_dist")],
        description := get_parameter_description category none none }
  else if category = "Median Distance" then
    .ok
      { param_3d := if only_xy then "median_dist_xy" else "median_dist",
        color_range := [0, seriesMax (table "median_dist")],
        description := get_parameter_description category none none }
  else if category = "Standard Deviation" then
    .ok
      { param_3d := if only_xy then "coord_std_xy" else "coord_std",
        color_range :=
          [seriesMin (table (if only_xy then "coord_std_xy" else "coord_std")),
           seriesMax (table (if only_xy then "coord_std_xy" else "coord_std"))],
        description := get_parameter_description category none none }
  else
    .error "Unknown category selected."

/-- The eight category strings offered by the category selector. -/
def categoryChoices : List String :=
  ["Accuracy", "Beamforming Maxima", "Interquartile Range",
   "Mean Absolute Error", "Mean Difference", "Mean Distance",
   "Median Distance", "Standard Deviation"]

/-! ### Dimension lemmas for the discovery result -/

lemma freqDim_eq (files : List (List Char)) :
    freqDim files =
      sortedDistinct ((matchedTriples files).map (fun t => t.1)) := by
  by_cases h : matchedTriples files = []
  · rw [freqDim, dimLookup, extract_parameters_from_paths, if_pos h, h]
    rfl
  · rw [freqDim, dimLookup, extract_parameters_from_paths, if_neg h]
    rfl

lemma bsDim_eq (files : List (List Char)) :
    bsDim files =
      sortedDistinct ((matchedTriples files).map (fun t => t.2.1)) := by
  by_cases h : matchedTriples files = []
  · rw [bsDim, dimLookup, extract_parameters_from_paths, if_pos h, h]
    rfl
  · rw [bsDim, dimLookup, extract_parameters_from_paths, if_neg h]
    rfl

lemma nobDim_eq (files : List (List Char)) :
    nobDim files =
      sortedDistinct ((matchedTriples files).map (fun t => t.2.2)) := by
  by_cases h : matchedTriples files = []
  · rw [nobDim, dimLookup, extract_parameters_from_paths, if_pos h, h]
    rfl
  · rw [nobDim, dimLookup, extract_parameters_from_paths, if_neg h]
    rfl

lemma mem_freqDim (n : Nat) (files : List (List Char)) :
    n ∈ freqDim files ↔
      ∃ f ∈ files, endsWithCsv f = true ∧
        ∃ b nb, reSearch f = some (n, b, nb) := by
  rw [freqDim_eq, mem_sortedDistinct, List.mem_map]
  constructor
  · rintro ⟨⟨fr, bs, nb⟩, hmem, rfl⟩
    obtain ⟨f, hf, hcsv, hre⟩ := (mem_matchedTriples _ _).mp hmem
    exact ⟨f, hf, hcsv, bs, nb, hre⟩
  · rintro ⟨f, hf, hcsv, b, nb, hre⟩
    exact ⟨(n, b, nb), (mem_matchedTriples _ _).mpr ⟨f, hf, hcsv, hre⟩, rfl⟩

lemma mem_bsDim (n : Nat) (files : List (List Char)) :
    n ∈ bsDim files ↔
      ∃ f ∈ files, endsWithCsv f = true ∧
        ∃ fr nb, reSearch f = some (fr, n, nb) := by
  rw [bsDim_eq, mem_sortedDistinct, List.mem_map]
  constructor
  · rintro ⟨⟨fr, bs, nb⟩, hmem, rfl⟩
    obtain ⟨f, hf, hcsv, hre⟩ := (mem_matchedTriples _ _).mp hmem
    exact ⟨f, hf, hcsv, fr, nb, hre⟩
  · rintro ⟨f, hf, hcsv, fr, nb, hre⟩
    exact ⟨(fr, n, nb), (mem_matchedTriples _ _).mpr ⟨f, hf, hcsv, hre⟩, rfl⟩

lemma mem_nobDim (n : Nat) (files : List (List Char)) :
    n ∈ nobDim files ↔
      ∃ f ∈ files, endsWithCsv f = true ∧
        ∃ fr b, reSearch f = some (fr, b, n) := by
  rw [nobDim_eq, mem_sortedDistinct, List.mem_map]
  constructor
  · rintro ⟨⟨fr, bs, nb⟩, hmem, rfl⟩
    obtain ⟨f, hf, hcsv, hre⟩ := (mem_matchedTriples _ _).mp hmem
    exact ⟨f, hf, hcsv, fr, bs, hre⟩
  · rintro ⟨f, hf, hcsv, fr, b, hre⟩
    exact ⟨(fr, b, n), (mem_matchedTriples _ _).mpr ⟨f, hf, hcsv, hre⟩, rfl⟩

lemma matchedTriples_perm {files files' : List (List Char)}
    (hp : files.Perm files') :
    (matchedTriples files).Perm (matchedTriples files') :=
  (hp.filter endsWithCsv).filterMap reSearch

lemma extract_perm_invariant {files files' : List (List Char)}
    (hp : files.Perm files') :
    extract_parameters_from_paths files =
      extract_parameters_from_paths files' := by
  have hmt := matchedTriples_perm hp
  by_cases h : matchedTriples files = []
  · have h' : matchedTriples files' = [] := (h ▸ hmt).symm.eq_nil
    rw [extract_parameters_from_paths, extract_parameters_from_paths,
      if_pos h, if_pos h']
  · have h' : matchedTriples files' ≠ [] := by
      intro h0
      exact h (h0 ▸ hmt).eq_nil
    rw [extract_parameters_from_paths, extract_parameters_from_paths,
      if_neg h, if_neg h']
    have e1 := sortedDistinct_eq_of_mem_iff
      (fun a => (hmt.map (fun t : Nat × Nat × Nat => t.1)).mem_iff)
    have e2 := sortedDistinct_eq_of_mem_iff
      (fun a => (hmt.map (fun t : Nat × Nat × Nat => t.2.1)).mem_iff)
    have e3 := sortedDistinct_eq_of_mem_iff
      (fun a => (hmt.map (fun t : Nat × Nat × Nat => t.2.2)).mem_iff)
    rw [e1, e2, e3]

/-! ### Claim theorems -/

/-- C2: for the Standard Deviation category, `resolve` derives the color
range as [min, max] of the column it actually selected (`coord_std_xy` when
the xy-only flag is set, `coord_std` otherwise), while for every other
range-bearing category (Beamforming Maxima, Mean Absolute Error,
Mean Distance, Median Distance, Mean Difference, Interquartile Range) the
color range is [0, max] of the canonical non-xy base column, regardless of
the xy-only flag. -/
theorem C2_std_dev_range_asymmetry (t : Table) (d : Nat) (ax : String)
    (xy : Bool) :
    (∃ ms, resolve "Standard Deviation" t d ax xy = .ok ms ∧
       ms.param_3d = (if xy then "coord_std_xy" else "coord_std") ∧
       ms.color_range =
         [seriesMin (t ms.param_3d), seriesMax (t ms.param_3d)]) ∧
    (∃ ms, resolve "Beamforming Maxima" t d ax xy = .ok ms ∧
       ms.param_3d = (if xy then "beamforming_dist_xy" else "beamforming_dist") ∧
       ms.color_range = [0, seriesMax (t "beamforming_dist")]) ∧
    (∃ ms, resolve "Mean Absolute Error" t d ax xy = .ok ms ∧
       ms.param_3d = (if xy then "mae_xy" else "mae_coord") ∧
       ms.color_range = [0, seriesMax (t "mae_coord")]) ∧
    (∃ ms, resolve "Mean Distance" t d ax xy = .ok ms ∧
       ms.param_3d = (if xy then "mean_dist_xy" else "mean_dist") ∧
       ms.color_range = [0, seriesMax (t "mean_dist")]) ∧
    (∃ ms, resolve "Median Distance" t d ax xy = .ok ms ∧
       ms.param_3d = (if xy then "median_dist_xy" else "median_dist") ∧
       ms.color_range = [0, seriesMax (t "median_dist")]) ∧
    (∃ ms, resolve "Mean Difference" t d ax xy = .ok ms ∧
       ms.param_3d = "mean_diff_" ++ ax ∧
       ms.color_range = [0, seriesMax (t ("mean_diff_" ++ ax))]) ∧
    (∃ ms, resolve "Interquartile Range" t d ax xy = .ok ms ∧
       ms.param_3d = "iqr_dist" ∧
       ms.color_range = [0, seriesMax (t "iqr_dist")]) := by
  cases xy <;>
    exact ⟨⟨_, rfl, rfl, rfl⟩, ⟨_, rfl, rfl, rfl⟩, ⟨_, rfl, rfl, rfl⟩,
      ⟨_, rfl, rfl, rfl⟩, ⟨_, rfl, rfl, rfl⟩, ⟨_, rfl, rfl, rfl⟩,
      ⟨_, rfl, rfl, rfl⟩⟩

/-- C2 witness: the Standard Deviation conjunct evaluated at a concrete
table and xy = true. -/
theorem C2_std_dev_range_asymmetry_witness :
    ∃ ms, resolve "Standard Deviation" (fun _ => ([1, 3, 2] : List ℚ)) 5 "x"
        true = .ok ms ∧
      ms.param_3d = "coord_std_xy" ∧
      ms.color_range = [seriesMin [1, 3, 2], seriesMax [1, 3, 2]] :=
  (C2_std_dev_range_asymmetry (fun _ => [1, 3, 2]) 5 "x" true).1

/-- C5: for category Accuracy, for every table, distance threshold and
xy-only flag, the color range is exactly [0, 1] and the column is
accuracy_{d}cm_xy when xy-only is set, accuracy_{d}cm otherwise. -/
theorem C5_accuracy_fixed_range (t : Table) (d : Nat) (ax : String)
    (xy : Bool) :
    ∃ ms, resolve "Accuracy" t d ax xy = .ok ms ∧
      ms.color_range = [0, 1] ∧
      ms.param_3d =
        (if xy then "accuracy_" ++ toString d ++ "cm_xy"
         else "accuracy_" ++ toString d ++ "cm") := by
  cases xy <;> exact ⟨_, rfl, rfl, rfl⟩

/-- C5 witness: Accuracy at a concrete table and distance 10, xy off. -/
theorem C5_accuracy_fixed_range_witness :
    ∃ ms, resolve "Accuracy" (fun _ => ([4, 7] : List ℚ)) 10 "x" false =
        .ok ms ∧
      ms.color_range = [0, 1] ∧ ms.param_3d = "accuracy_10cm" :=
  C5_accuracy_fixed_range (fun _ => [4, 7]) 10 "x" false

/-- C6: for the categories Interquartile Range and Mean Difference the
resolved MetricSelection is identical for both values of the xy-only flag,
all other inputs held equal. -/
theorem C6_no_xy_variant (t : Table) (d : Nat) (ax : String) :
    resolve "Interquartile Range" t d ax true =
      resolve "Interquartile Range" t d ax false ∧
    resolve "Mean Difference" t d ax true =
      resolve "Mean Difference" t d ax false :=
  ⟨rfl, rfl⟩

/-- C6 witness: both equalities at a concrete table and axis. -/
theorem C6_no_xy_variant_witness :
    resolve "Interquartile Range" (fun _ => ([2, 9] : List ℚ)) 5 "y" true =
      resolve "Interquartile Range" (fun _ => ([2, 9] : List ℚ)) 5 "y"
        false ∧
    resolve "Mean Difference" (fun _ => ([2, 9] : List ℚ)) 5 "y" true =
      resolve "Mean Difference" (fun _ => ([2, 9] : List ℚ)) 5 "y" false :=
  C6_no_xy_variant (fun _ => [2, 9]) 5 "y"

/-- C7: for a category outside the eight enumerated choices, `resolve`
yields the explicit unknown-category error ("Unknown category selected.",
the message `main` shows with `st.error` before returning without drawing a
chart) rather than a MetricSelection. -/
theorem C7_unknown_category (c : String) (t : Table) (d : Nat) (ax : String)
    (xy : Bool) (h : c ∉ categoryChoices) :
    resolve c t d ax xy = .error "Unknown category selected." := by
  simp only [categoryChoices, List.mem_cons, List.not_mem_nil, or_false,
    not_or] at h
  obtain ⟨h1, h2, h3, h4, h5, h6, h7, h8⟩ := h
  rw [resolve, if_neg h1, if_neg h2, if_neg h3, if_neg h4, if_neg h5,
    if_neg h6, if_neg h7, if_neg h8]

/-- C7 witness: a concrete out-of-set category. -/
theorem C7_unknown_category_witness :
    resolve "Bogus" (fun _ => ([] : List ℚ)) 5 "x" false =
      .error "Unknown category selected." :=
  C7_unknown_category "Bogus" (fun _ => []) 5 "x" false (by decide)

/-- C8: `resolve` is a pure function of its five inputs (category, table,
distance threshold, axis, xy-only flag): invocations with equal inputs
yield equal MetricSelections. -/
theorem C8_resolution_deterministic (c₁ c₂ : String) (t₁ t₂ : Table)
    (d₁ d₂ : Nat) (ax₁ ax₂ : String) (xy₁ xy₂ : Bool) (hc : c₁ = c₂)
    (ht : t₁ = t₂) (hd : d₁ = d₂) (ha : ax₁ = ax₂) (hx : xy₁ = xy₂) :
    resolve c₁ t₁ d₁ ax₁ xy₁ = resolve c₂ t₂ d₂ ax₂ xy₂ := by
  rw [hc, ht, hd, ha, hx]

/-- C8 witness: determinism at one concrete input. -/
theorem C8_resolution_deterministic_witness :
    resolve "Mean Distance" (fun _ => ([3] : List ℚ)) 5 "x" true =
      resolve "Mean Distance" (fun _ => ([3] : List ℚ)) 5 "x" true :=
  C8_resolution_deterministic "Mean Distance" "Mean Distance" _ _ 5 5 "x" "x"
    true true rfl rfl rfl rfl rfl

/-- C1 counterexample: the directory holding only f5_bs6_nob7.csv makes
`filter_valid_combinations 5 6` return [7], although no file named exactly
result_summary_f5_bs6_nob7.csv exists in it — the scan keys on the regular
expression anywhere in a .csv name, not on the exact result_summary name. -/
theorem C1_counterexample :
    filter_valid_combinations 5 6 [("f5_bs6_nob7.csv").toList] = [7] ∧
    exactResultName 5 6 7 ∉ [("f5_bs6_nob7.csv").toList] := by
  constructor
  · rfl
  · decide

/-- C1 (amended): for every directory state and every (frequency, blocksize)
pair, `filter_valid_combinations` returns, strictly ascending and without
duplicates, exactly the nob values for which some file ending in .csv whose
name contains a match of f{frequency}_bs{blocksize}_nob{nob} (values
compared as integers) exists in the directory. -/
theorem C1_filter_matches_pattern (selF selBs : Nat)
    (files : List (List Char)) :
    List.Sorted (· < ·) (filter_valid_combinations selF selBs files) ∧
    ∀ n, n ∈ filter_valid_combinations selF selBs files ↔
      ∃ f ∈ files, endsWithCsv f = true ∧
        reSearch f = some (selF, selBs, n) :=
  ⟨sorted_sortedDistinct _,
   fun n => mem_filter_valid_combinations n selF selBs files⟩

/-- C1 witness: the amended statement evaluated on a concrete directory. -/
theorem C1_filter_matches_pattern_witness :
    List.Sorted (· < ·)
      (filter_valid_combinations 500 1024
        [("result_summary_f500_bs1024_nob8.csv").toList]) ∧
    (8 ∈ filter_valid_combinations 500 1024
        [("result_summary_f500_bs1024_nob8.csv").toList] ↔
      ∃ f ∈ [("result_summary_f500_bs1024_nob8.csv").toList],
        endsWithCsv f = true ∧ reSearch f = some (500, 1024, 8)) :=
  ⟨(C1_filter_matches_pattern 500 1024 _).1,
   (C1_filter_matches_pattern 500 1024 _).2 8⟩

/-- C3 counterexample: on an empty directory the discovery result is the
empty dictionary — it contains no entry at all for any of the three
dimensions (`dimLookup` is `none`, the modelled KeyError), not an empty
sequence per dimension that a caller could read without failing. -/
theorem C3_counterexample :
    extract_parameters_from_paths [] = [] ∧
    dimLookup [] "frequency" = none ∧
    dimLookup [] "blocksize" = none ∧
    dimLookup [] "nob" = none :=
  ⟨rfl, rfl, rfl, rfl⟩

/-- C3 (amended): if no listed file both ends in .csv and matches the
extraction pattern, `extract_parameters_from_paths` returns the empty
dictionary, with no key for any of the three dimensions, so a caller
reading a dimension fails (KeyError) rather than receiving an empty
sequence. -/
theorem C3_no_match_empty_dict (files : List (List Char))
    (h : ∀ f ∈ files, endsWithCsv f = true → reSearch f = none) :
    extract_parameters_from_paths files = [] ∧
    dimLookup files "frequency" = none ∧
    dimLookup files "blocksize" = none ∧
    dimLookup files "nob" = none := by
  have hmt : matchedTriples files = [] := by
    rw [matchedTriples, List.filterMap_eq_nil_iff]
    intro f hf
    rw [List.mem_filter] at hf
    exact h f hf.1 hf.2
  have he : extract_parameters_from_paths files = [] := by
    rw [extract_parameters_from_paths, if_pos hmt]
  refine ⟨he, ?_, ?_, ?_⟩ <;> rw [dimLookup, he] <;> rfl

/-- C3 witness: a directory with one non-csv file and one csv file that
does not match the pattern. -/
theorem C3_no_match_empty_dict_witness :
    extract_parameters_from_paths
        [("notes.txt").toList, ("f_bs_nob.csv").toList] = [] ∧
    dimLookup [("notes.txt").toList, ("f_bs_nob.csv").toList] "frequency" =
      none ∧
    dimLookup [("notes.txt").toList, ("f_bs_nob.csv").toList] "blocksize" =
      none ∧
    dimLookup [("notes.txt").toList, ("f_bs_nob.csv").toList] "nob" =
      none :=
  C3_no_match_empty_dict _ (by decide)

/-- C4: for any directory listing and any reordering of it,
`extract_parameters_from_paths` is unchanged under the reordering, and each
of the three dimensions it returns is strictly ascending without
duplicates and holds exactly the distinct values captured from the listed
.csv files matching the extraction pattern. -/
theorem C4_dims_sorted_distinct (files files' : List (List Char))
    (hp : files.Perm files') :
    extract_parameters_from_paths files =
      extract_parameters_from_paths files' ∧
    List.Sorted (· < ·) (freqDim files) ∧
    List.Sorted (· < ·) (bsDim files) ∧
    List.Sorted (· < ·) (nobDim files) ∧
    (∀ n, n ∈ freqDim files ↔
      ∃ f ∈ files, endsWithCsv f = true ∧
        ∃ b nb, reSearch f = some (n, b, nb)) ∧
    (∀ n, n ∈ bsDim files ↔
      ∃ f ∈ files, endsWithCsv f = true ∧
        ∃ fr nb, reSearch f = some (fr, n, nb)) ∧
    (∀ n, n ∈ nobDim files ↔
      ∃ f ∈ files, endsWithCsv f = true ∧
        ∃ fr b, reSearch f = some (fr, b, n)) := by
  refine ⟨extract_perm_invariant hp, ?_, ?_, ?_,
    fun n => mem_freqDim n files, fun n => mem_bsDim n files,
    fun n => mem_nobDim n files⟩
  · rw [freqDim_eq]
    exact sorted_sortedDistinct _
  · rw [bsDim_eq]
    exact sorted_sortedDistinct _
  · rw [nobDim_eq]
    exact sorted_sortedDistinct _

/-- C4 witness: reordering a concrete two-file listing leaves the discovery
result unchanged. -/
theorem C4_dims_sorted_distinct_witness :
    extract_parameters_from_paths
        [("result_summary_f500_bs1024_nob8.csv").toList,
         ("result_summary_f500_bs2048_nob16.csv").toList] =
      extract_parameters_from_paths
        [("result_summary_f500_bs2048_nob16.csv").toList,
         ("result_summary_f500_bs1024_nob8.csv").toList] ∧
    List.Sorted (· < ·)
      (freqDim [("result_summary_f500_bs1024_nob8.csv").toList,
                ("result_summary_f500_bs2048_nob16.csv").toList]) :=
  ⟨(C4_dims_sorted_distinct _ _ (by decide)).1,
   (C4_dims_sorted_distinct _ _ (List.Perm.refl _)).2.1⟩

/-- C9: every value of `filter_valid_combinations` lies in the nob
dimension of the discovery result, and the nob dimension equals the
ascending-sorted union, over the (frequency, blocksize) pairs drawn from
the discovered frequency and blocksize dimensions, of
`filter_valid_combinations` at those pairs. -/
theorem C9_filter_discover_coherence (files : List (List Char))
    (selF selBs : Nat) :
    (∀ n ∈ filter_valid_combinations selF selBs files, n ∈ nobDim files) ∧
    nobDim files =
      sortedDistinct ((freqDim files).flatMap (fun fr =>
        (bsDim files).flatMap (fun b =>
          filter_valid_combinations fr b files))) := by
  constructor
  · intro n hn
    obtain ⟨f, hf, hcsv, hre⟩ :=
      (mem_filter_valid_combinations n selF selBs files).mp hn
    exact (mem_nobDim n files).mpr ⟨f, hf, hcsv, selF, selBs, hre⟩
  · refine strictSorted_eq_of_mem_iff ?_ (sorted_sortedDistinct _) ?_
    · rw [nobDim_eq]
      exact sorted_sortedDistinct _
    · intro n
      rw [mem_sortedDistinct, List.mem_flatMap, mem_nobDim]
      constructor
      · rintro ⟨f, hf, hcsv, fr, b, hre⟩
        refine ⟨fr, (mem_freqDim fr files).mpr ⟨f, hf, hcsv, b, n, hre⟩, ?_⟩
        rw [List.mem_flatMap]
        refine ⟨b, (mem_bsDim b files).mpr ⟨f, hf, hcsv, fr, n, hre⟩, ?_⟩
        exact (mem_filter_valid_combinations n fr b files).mpr
          ⟨f, hf, hcsv, hre⟩
      · rintro ⟨fr, hfr, hmem⟩
        rw [List.mem_flatMap] at hmem
        obtain ⟨b, hb, hn⟩ := hmem
        obtain ⟨f, hf, hcsv, hre⟩ :=
          (mem_filter_valid_combinations n fr b files).mp hn
        exact ⟨f, hf, hcsv, fr, b, hre⟩

/-- C9 witness: the union equation evaluated on a concrete directory. -/
theorem C9_filter_discover_coherence_witness :
    nobDim [("result_summary_f500_bs1024_nob8.csv").toList] =
      sortedDistinct
        ((freqDim [("result_summary_f500_bs1024_nob8.csv").toList]).flatMap
          (fun fr =>
            (bsDim
              [("result_summary_f500_bs1024_nob8.csv").toList]).flatMap
              (fun b =>
                filter_valid_combinations fr b
                  [("result_summary_f500_bs1024_nob8.csv").toList]))) :=
  (C9_filter_discover_coherence _ 500 1024).2

/-- C10: each matched file contributes one integer to each dimension, so
the discovery dictionary either is empty, with all three dimension keys
absent, or holds exactly the keys frequency, blocksize, nob, each mapped to
a non-empty list. -/
theorem C10_dims_all_or_nothing (files : List (List Char)) :
    (extract_parameters_from_paths files = [] ∧
     dimLookup files "frequency" = none ∧
     dimLookup files "blocksize" = none ∧
     dimLookup files "nob" = none) ∨
    (∃ lf lb ln, extract_parameters_from_paths files =
        [("frequency", lf), ("blocksize", lb), ("nob", ln)] ∧
      lf ≠ [] ∧ lb ≠ [] ∧ ln ≠ []) := by
  by_cases h : matchedTriples files = []
  · left
    have he : extract_parameters_from_paths files = [] := by
      rw [extract_parameters_from_paths, if_pos h]
    refine ⟨he, ?_, ?_, ?_⟩ <;> rw [dimLookup, he] <;> rfl
  · right
    obtain ⟨t, ts, ht⟩ : ∃ t ts, matchedTriples files = t :: ts := by
      cases hmt : matchedTriples files with
      | nil => exact absurd hmt h
      | cons t ts => exact ⟨t, ts, rfl⟩
    have hne : ∀ g : Nat × Nat × Nat → Nat,
        sortedDistinct ((matchedTriples files).map g) ≠ [] := by
      intro g
      apply List.ne_nil_of_mem (a := g t)
      rw [mem_sortedDistinct, List.mem_map]
      exact ⟨t, by rw [ht]; exact List.mem_cons_self t ts, rfl⟩
    refine ⟨sortedDistinct ((matchedTriples files).map (fun t => t.1)),
      sortedDistinct ((matchedTriples files).map (fun t => t.2.1)),
      sortedDistinct ((matchedTriples files).map (fun t => t.2.2)),
      ?_, hne _, hne _, hne _⟩
    rw [extract_parameters_from_paths, if_neg h]

/-- C10 witness: the disjunction at a concrete one-file directory. -/
theorem C10_dims_all_or_nothing_witness :
    (extract_parameters_from_paths
        [("result_summary_f500_bs1024_nob8.csv").toList] = [] ∧
     dimLookup [("result_summary_f500_bs1024_nob8.csv").toList]
        "frequency" = none ∧
     dimLookup [("result_summary_f500_bs1024_nob8.csv").toList]
        "blocksize" = none ∧
     dimLookup [("result_summary_f500_bs1024_nob8.csv").toList] "nob" =
        none) ∨
    (∃ lf lb ln, extract_parameters_from_paths
        [("result_summary_f500_bs1024_nob8.csv").toList] =
        [("frequency", lf), ("blocksize", lb), ("nob", ln)] ∧
      lf ≠ [] ∧ lb ≠ [] ∧ ln ≠ []) :=
  C10_dims_all_or_nothing _

end BA
